import Mathlib

/-!
Shallow embedding of the resilient fetch-and-checkpoint engine of
`parser.py` (class `OtzyovikParser`) together with the default values of
`config.py` (class `Config`).

The embedding follows the source line by line:

* `_is_blocked_response`  → `isBlockedResponse`
* `make_request`          → `makeRequest` (the bounded retry loop; the
  network is an oracle `Nat → NetEvent` giving the event of each attempt)
* `scrape_page`           → `scrapePage` / `processHotel`
* `_load_progress`        → `loadProgress` / `applyCheckpoint`
* `_save_progress`        → `saveProgressOps` / `checkpointOf`
* `_save_results`         → `saveResults` / `dropDuplicatesKeepLast`
* `OtzyovikParser.__init__` (config overwrites) → `parserInit`

Sleeps and log lines carry no state and are dropped; the random
user-agent rotation does not influence any modelled observable.  The two
mutable counters `total_requests` / `blocked_count` live in `ReqCounters`
inside `CrawlState`.
-/

/-- Lower-casing of a single character as `str.lower()` behaves on the
alphabets that actually occur in the block-signature list: ASCII letters
and the Russian alphabet (А..Я → а..я, Ё → ё). -/
def lowerChar (c : Char) : Char :=
  if 'A' ≤ c ∧ c ≤ 'Z' then Char.ofNat (c.toNat + 32)
  else if 0x410 ≤ c.toNat ∧ c.toNat ≤ 0x42F then Char.ofNat (c.toNat + 0x20)
  else if c.toNat = 0x401 then Char.ofNat 0x451
  else c

/-- `s.lower()` on the character list of a string. -/
def strLower (s : String) : String := String.mk (s.data.map lowerChar)

/-- Boolean list-prefix test (needle, haystack). -/
def listPrefixOf : List Char → List Char → Bool
  | [], _ => true
  | _ :: _, [] => false
  | a :: as, b :: bs => a == b && listPrefixOf as bs

/-- `needle in hay` for character lists: some suffix of `hay` starts with
`needle` (the Python `in` operator on strings). -/
def containsSub : List Char → List Char → Bool
  | [], needle => needle.isEmpty
  | a :: t, needle => listPrefixOf needle (a :: t) || containsSub t needle

/-- `needle in hay` on strings. -/
def strContains (hay needle : String) : Bool := containsSub hay.data needle.data

/-- The part of an HTTP response that `parser.py` inspects: status code,
`Content-Type` header and decoded body. -/
structure HttpResponse where
  status : Nat
  contentType : String
  body : String
deriving DecidableEq

/-- The block-signature substrings of `_is_blocked_response`
(`block_indicators`, parser.py lines 133-137). -/
def blockIndicators : List String :=
  ["captcha", "recaptcha", "cloudflare", "доступ ограничен",
   "your access has been blocked", "blocked", "403 forbidden",
   "too many requests", "rate limit exceeded"]

/-- The "real content" marker checked by the short-body rule
(parser.py line 143). -/
def contentMarker : String := "product-list"

/-- Truthiness of a `requests.Response` value: `Response.__bool__` is
documented to return `self.ok`, i.e. `status_code < 400`; `None` is falsy.
Hence the guard `if not response: return False` at the top of
`_is_blocked_response` returns `False` for every response whose status is
400 or above, before the explicit status-code check is reached. -/
def respTruthy : Option HttpResponse → Bool
  | none => false
  | some r => r.status < 400

/-- `OtzyovikParser._is_blocked_response` (parser.py lines 121-146),
including the dead status-code branch kept exactly as in the source. -/
def isBlockedResponse (resp : Option HttpResponse) : Bool :=
  if !respTruthy resp then false
  else
    match resp with
    | none => false
    | some r =>
      if r.status == 403 || r.status == 429 || r.status == 503 then true
      else if !r.body.isEmpty then
        if blockIndicators.any (fun ind => strContains (strLower r.body) ind) then
          true
        else if r.body.length < 1000 && !(strContains r.body contentMarker) then
          true
        else false
      else false

/-- The configuration attributes read by the parser (`config.py`).
Durations are modelled as rationals (the source uses Python floats whose
values here are small decimals, represented exactly). -/
structure Config where
  BASE_URL : String
  MAX_PAGES : Nat
  OUTPUT_FILE : String
  PROGRESS_FILE : String
  DELAY_MIN : ℚ
  DELAY_MAX : ℚ
  DELAY_BETWEEN_PAGES_MIN : ℚ
  DELAY_BETWEEN_PAGES_MAX : ℚ
  DELAY_BETWEEN_HOTELS_MIN : ℚ
  DELAY_BETWEEN_HOTELS_MAX : ℚ
  DELAY_AFTER_BLOCK : ℚ
  MAX_RETRIES : Nat
  TIMEOUT : ℚ
  MAX_HOTELS_PER_PAGE : Nat
  MAX_REVIEWS_PER_HOTEL : Nat
deriving DecidableEq

/-- `Config._set_defaults` (config.py lines 23-44). -/
def defaultConfig : Config where
  BASE_URL := "https://otzovik.com/travel/hotels/"
  MAX_PAGES := 1462
  OUTPUT_FILE := "otzovik_reviews.csv"
  PROGRESS_FILE := "progress.json"
  DELAY_MIN := 8
  DELAY_MAX := 15
  DELAY_BETWEEN_PAGES_MIN := 5
  DELAY_BETWEEN_PAGES_MAX := 10
  DELAY_BETWEEN_HOTELS_MIN := 3
  DELAY_BETWEEN_HOTELS_MAX := 7
  DELAY_AFTER_BLOCK := 60
  MAX_RETRIES := 3
  TIMEOUT := 30
  MAX_HOTELS_PER_PAGE := 20
  MAX_REVIEWS_PER_HOTEL := 50

/-- The configuration mutations performed by `OtzyovikParser.__init__`
(parser.py lines 29-44): every delay field of the supplied configuration
is overwritten before the crawl starts. -/
def parserInit (c : Config) : Config :=
  { c with
    DELAY_MIN := 3
    DELAY_MAX := 5
    DELAY_BETWEEN_HOTELS_MIN := 3
    DELAY_BETWEEN_HOTELS_MAX := 5
    DELAY_BETWEEN_PAGES_MIN := 3
    DELAY_BETWEEN_PAGES_MAX := 5
    DELAY_AFTER_BLOCK := 10 }

/-- The retry decision taken after a block detection. -/
inductive RetryAction where
  | rotateAndWait (wait : ℚ)
  | giveUp
deriving DecidableEq

/-- Wait duration carried by a retry action (0 for give-up). -/
def RetryAction.waitTime : RetryAction → ℚ
  | .rotateAndWait w => w
  | .giveUp => 0

/-- The inline retry scheduler of `make_request` for a blocked response
(parser.py lines 267-279): below the retry limit, rotate the user agent
and wait `DELAY_AFTER_BLOCK * (retry_count + 1)` seconds; otherwise give
up. -/
def blockedNextAction (cfg : Config) (attempt : Nat) : RetryAction :=
  if attempt < cfg.MAX_RETRIES then
    RetryAction.rotateAndWait (cfg.DELAY_AFTER_BLOCK * ((attempt : ℚ) + 1))
  else RetryAction.giveUp

/-- What one HTTP attempt can produce: a response, a
`requests.exceptions.Timeout`, or another `RequestException`. -/
inductive NetEvent where
  | response (r : HttpResponse)
  | timeout
  | netError
deriving DecidableEq

/-- The two crawl-wide counters mutated by `make_request`
(`self.total_requests`, `self.blocked_count`). -/
structure ReqCounters where
  totalRequests : Nat
  blockedCount : Nat
deriving DecidableEq

/-- One attempt of `OtzyovikParser.make_request` (parser.py lines
247-313), with `retry_count = retryCount`.  `events retryCount` is the
outcome of this attempt's HTTP call; `recur` is the recursive call
`self.make_request(url, referer, retry_count + 1)`, taken only under the
guard `retry_count < MAX_RETRIES` exactly as in the source. -/
def makeRequestAttempt (cfg : Config) (events : Nat → NetEvent)
    (retryCount : Nat) (c : ReqCounters)
    (recur : ReqCounters → Option String × ReqCounters) :
    Option String × ReqCounters :=
  let c1 : ReqCounters := { c with totalRequests := c.totalRequests + 1 }
  match events retryCount with
  | NetEvent.timeout =>
      if retryCount < cfg.MAX_RETRIES then recur c1 else (none, c1)
  | NetEvent.netError =>
      if retryCount < cfg.MAX_RETRIES then recur c1 else (none, c1)
  | NetEvent.response r =>
      if isBlockedResponse (some r) then
        let c2 : ReqCounters := { c1 with blockedCount := c1.blockedCount + 1 }
        match blockedNextAction cfg retryCount with
        | RetryAction.rotateAndWait _ => recur c2
        | RetryAction.giveUp => (none, c2)
      else if r.status == 200 then
        if strContains r.contentType "text/html" then
          if 1000 < r.body.length then (some r.body, c1) else (none, c1)
        else (none, c1)
      else if r.status == 404 then (none, c1)
      else (none, c1)

/-- The bounded retry loop of `make_request`.  The Python recursion
enters a deeper call only while `retry_count < MAX_RETRIES`, so its depth
from `retry_count = n` is at most `MAX_RETRIES + 1 - n`; `fuel` is that
structural bound, supplied by the `makeRequest` wrapper so that the
`fuel = 0` fallback (which cuts the recursion off) is never reached. -/
def makeRequestGo (cfg : Config) (events : Nat → NetEvent) :
    Nat → Nat → ReqCounters → Option String × ReqCounters
  | 0, retryCount, c =>
      makeRequestAttempt cfg events retryCount c (fun c1 => (none, c1))
  | fuel + 1, retryCount, c =>
      makeRequestAttempt cfg events retryCount c
        (makeRequestGo cfg events fuel (retryCount + 1))

/-- `OtzyovikParser.make_request`: the retry loop entered at
`retry_count = retryCount` (call sites always pass 0). -/
def makeRequest (cfg : Config) (events : Nat → NetEvent) (retryCount : Nat)
    (c : ReqCounters) : Option String × ReqCounters :=
  makeRequestGo cfg events (cfg.MAX_RETRIES + 1 - retryCount) retryCount c

/-- A review record of the result buffer.  `parse_hotel_page` builds a
wide dictionary per review; only the deduplication key `review_id` and the
remaining payload (collapsed into one field) matter to the engine. -/
structure Review where
  review_id : String
  review_text : String
deriving DecidableEq

/-- A hotel descriptor produced from a listing page by `parse_list_page`,
restricted to the fields `scrape_page` branches on. -/
structure Hotel where
  id : String
  name : String
  url : String
  reviewsCount : Nat
deriving DecidableEq

/-- The mutable crawl state of `OtzyovikParser`: `self.results`,
`self.processed_hotels`, `self.processed_pages` (Python `set`s, modelled
as finite sets), `self.total_requests`, `self.blocked_count`. -/
structure CrawlState where
  results : List Review
  processedHotels : Finset String
  processedPages : Finset Nat
  totalRequests : Nat
  blockedCount : Nat
deriving DecidableEq

/-- The fresh state built at the top of `__init__` before
`_load_progress` runs. -/
def emptyCrawlState : CrawlState :=
  { results := [], processedHotels := ∅, processedPages := ∅
    totalRequests := 0, blockedCount := 0 }

/-- The external collaborators of the engine: the network (per listing
page and per hotel URL, an event for each attempt number) and the
HTML extractor (`parse_list_page` / `parse_hotel_page`, treated as pure
functions of the fetched body per the spec's interface boundary). -/
structure World where
  pageEvents : Nat → Nat → NetEvent
  hotelEvents : String → Nat → NetEvent
  extractHotels : Nat → String → List Hotel
  extractReviews : String → String → List Review

/-- `get_list_page_url` (parser.py lines 315-320). -/
def getListPageUrl (cfg : Config) (pageNum : Nat) : String :=
  if pageNum == 1 then cfg.BASE_URL
  else cfg.BASE_URL ++ toString pageNum ++ "/"

/-- One iteration of the hotel loop of `scrape_page`
(parser.py lines 738-804): skip an already-processed hotel; mark a
zero-review hotel processed without a fetch; otherwise fetch the detail
page — on failure `continue` (leaving only the counters changed), on
success append extracted reviews and mark the hotel processed. -/
def processHotel (cfg : Config) (w : World) (st : CrawlState) (h : Hotel) :
    CrawlState :=
  if h.url ∈ st.processedHotels then st
  else if h.reviewsCount == 0 then
    { st with processedHotels := insert h.url st.processedHotels }
  else
    let res := makeRequest cfg (w.hotelEvents h.url) 0
      ⟨st.totalRequests, st.blockedCount⟩
    let st1 := { st with
      totalRequests := res.2.totalRequests
      blockedCount := res.2.blockedCount }
    match res.1 with
    | none => st1
    | some html =>
        let reviews := w.extractReviews h.url html
        { st1 with
          results := st1.results ++ reviews
          processedHotels := insert h.url st1.processedHotels }

/-- `OtzyovikParser.scrape_page` (parser.py lines 700-816).  Returns the
Boolean result of the Python function together with the updated state. -/
def scrapePage (cfg : Config) (w : World) (pageNum : Nat) (st : CrawlState) :
    Bool × CrawlState :=
  if pageNum ∈ st.processedPages then (true, st)
  else
    let res := makeRequest cfg (w.pageEvents pageNum) 0
      ⟨st.totalRequests, st.blockedCount⟩
    let st1 := { st with
      totalRequests := res.2.totalRequests
      blockedCount := res.2.blockedCount }
    match res.1 with
    | none => (false, st1)
    | some html =>
        let hotels := w.extractHotels pageNum html
        if hotels.isEmpty then
          (true, { st1 with processedPages := insert pageNum st1.processedPages })
        else
          let st2 := hotels.foldl (processHotel cfg w) st1
          (true, { st2 with processedPages := insert pageNum st2.processedPages })

/-- The checkpoint dictionary written by `_save_progress`
(parser.py lines 171-188): the five state components plus the metadata
fields (`last_updated`, `parser_version`, `delays_config`) that
`_load_progress` ignores. -/
structure Checkpoint where
  processed_hotels : List String
  processed_pages : List Nat
  results : List Review
  total_requests : Nat
  blocked_count : Nat
  last_updated : Nat
  parser_version : String
  delays_config : List ℚ
deriving DecidableEq

/-- The checkpoint value serialised by `_save_progress` for state `st`
at time `now`.  Python's `list(set)` enumerates the set in an arbitrary
order; the model picks the canonical sorted enumeration. -/
def checkpointOf (cfg : Config) (st : CrawlState) (now : Nat) : Checkpoint :=
  { processed_hotels := st.processedHotels.sort (· ≤ ·)
    processed_pages := st.processedPages.sort (· ≤ ·)
    results := st.results
    total_requests := st.totalRequests
    blocked_count := st.blockedCount
    last_updated := now
    parser_version := "3.2"
    delays_config :=
      [cfg.DELAY_MIN, cfg.DELAY_MAX,
       cfg.DELAY_BETWEEN_HOTELS_MIN, cfg.DELAY_BETWEEN_HOTELS_MAX,
       cfg.DELAY_BETWEEN_PAGES_MIN, cfg.DELAY_BETWEEN_PAGES_MAX,
       cfg.DELAY_AFTER_BLOCK] }

/-- The field assignments of `_load_progress` (parser.py lines 155-159)
applied to the in-memory state. -/
def applyCheckpoint (cp : Checkpoint) (st : CrawlState) : CrawlState :=
  { st with
    processedHotels := cp.processed_hotels.toFinset
    processedPages := cp.processed_pages.toFinset
    results := cp.results
    totalRequests := cp.total_requests
    blockedCount := cp.blocked_count }

/-- `OtzyovikParser._load_progress` (parser.py lines 148-166): `none`
stands for a missing or unparseable progress file, in which case the
exception handler leaves the current state untouched. -/
def loadProgress : Option Checkpoint → CrawlState → CrawlState
  | none, st => st
  | some cp, st => applyCheckpoint cp st

/-- A file-system operation, recorded to state what `_save_progress`
does on disk.  `writeFile` is `open(path, 'w')` followed by a full
`json.dump` (an in-place truncating write). -/
inductive FileOp where
  | writeFile (path : String) (content : Checkpoint)
  | renameFile (src dst : String)
deriving DecidableEq

/-- Whether an operation is a rename. -/
def FileOp.isRename : FileOp → Bool
  | .renameFile _ _ => true
  | _ => false

/-- Path of the timestamped backup copy (parser.py line 194). -/
def backupPath (now : Nat) : String :=
  "data/progress_backup_" ++ toString now ++ ".json"

/-- The disk operations of `OtzyovikParser._save_progress`
(parser.py lines 190-196): a direct write of the checkpoint to the
progress file, then a write of the same checkpoint to the timestamped
backup file. -/
def saveProgressOps (cfg : Config) (st : CrawlState) (now : Nat) : List FileOp :=
  [FileOp.writeFile cfg.PROGRESS_FILE (checkpointOf cfg st now),
   FileOp.writeFile (backupPath now) (checkpointOf cfg st now)]

/-- Modelled from the spec: "`save(state)` — writes the full state
atomically (write-temp-then-rename or equivalent)".  The observable shape
of such a mechanism on the operation trace: the final path receives its
content through a rename from a temporary file and is never the target of
a direct truncating write.  This definition follows the spec's words, to
be compared with `saveProgressOps`, which is translated from the code. -/
def atomicReplaceWrite (ops : List FileOp) (finalPath : String) : Prop :=
  (∃ tmp content, tmp ≠ finalPath ∧ FileOp.writeFile tmp content ∈ ops ∧
      FileOp.renameFile tmp finalPath ∈ ops) ∧
  ∀ content, FileOp.writeFile finalPath content ∉ ops

/-- Last element of `l` satisfying `p`, if any (later elements win). -/
def lastMatch (p : Review → Bool) : List Review → Option Review
  | [] => none
  | a :: l =>
    match lastMatch p l with
    | some r => some r
    | none => if p a then some a else none

/-- `pandas.DataFrame.drop_duplicates(subset=['review_id'], keep='last')`
on the row list: for each `review_id` keep only the last occurrence, at
its original position. -/
def dropDuplicatesKeepLast (l : List Review) : List Review :=
  l.foldr
    (fun r acc =>
      if acc.any (fun x => x.review_id == r.review_id) then acc
      else r :: acc) []

/-- `OtzyovikParser._save_results` (parser.py lines 204-245): with an
empty buffer nothing is written (`none`); otherwise the persisted row
sequence is the buffer deduplicated on `review_id` keeping the last
occurrence. -/
def saveResults (results : List Review) : Option (List Review) :=
  if results.isEmpty then none else some (dropDuplicatesKeepLast results)

/-- `self.results.extend(reviews)` (parser.py line 765): a plain append,
with no deduplication at append time. -/
def appendResults (results newReviews : List Review) : List Review :=
  results ++ newReviews

/-- The whole parser: the configuration object next to the crawl state. -/
structure ParserState where
  cfg : Config
  crawl : CrawlState
deriving DecidableEq

/-- One iteration of the page loop of `run` (parser.py lines 841-858):
`scrape_page` is the only state-bearing call; the configuration is read
but never assigned during the run. -/
def runStep (w : World) (pageNum : Nat) (ps : ParserState) : ParserState :=
  { ps with crawl := (scrapePage ps.cfg w pageNum ps.crawl).2 }

/-- `OtzyovikParser.__init__` (parser.py lines 29-64): overwrite the delay
configuration, start from the empty state, then load the checkpoint if it
exists and parses. -/
def constructParser (c : Config) (loaded : Option Checkpoint) : ParserState :=
  { cfg := parserInit c, crawl := loadProgress loaded emptyCrawlState }

/-- The configuration actually in effect during a run started with the
defaults: the constructor's overwrites applied to `defaultConfig`
(`MAX_RETRIES = 3`, `DELAY_AFTER_BLOCK = 10`). -/
def runConfig : Config := parserInit defaultConfig

/-- A well-formed listing-page body: long enough to pass the length gate
of `make_request` and free of block signatures. -/
def bigBody : String := String.mk (List.replicate 1001 'a')

/-- A review-bearing hotel listed on page 1 of the fixture world. -/
def hotelA : Hotel :=
  { id := "hotel_000001", name := "A", url := "https://otzovik.com/hotelA",
    reviewsCount := 3 }

/-- A fixture world: page 1 serves a valid listing carrying `hotelA`,
while every fetch of `hotelA`'s detail page returns 403, a terminal
failure of `make_request`. -/
def worldC : World :=
  { pageEvents := fun _ _ => NetEvent.response ⟨200, "text/html", bigBody⟩
    hotelEvents := fun _ _ => NetEvent.response ⟨403, "text/html", ""⟩
    extractHotels := fun _ _ => [hotelA]
    extractReviews := fun _ _ => [] }

/-- A short status-200 body that carries the content marker and no block
signature. -/
def shortMarkerResp : HttpResponse :=
  { status := 200, contentType := "text/html", body := "product-list" }

/-- A short status-200 body lacking both the content marker and any block
signature. -/
def shortNoMarkerResp : HttpResponse :=
  { status := 200, contentType := "text/html", body := "tiny" }

/-- A zero-review hotel. -/
def hotelB : Hotel :=
  { id := "hotel_000002", name := "B", url := "https://otzovik.com/hotelB",
    reviewsCount := 0 }

/-- A state that has already visited `hotelA` and completed page 1. -/
def stW : CrawlState :=
  { results := [], processedHotels := {"https://otzovik.com/hotelA"},
    processedPages := {1}, totalRequests := 0, blockedCount := 0 }

/-- A clean 404 response. -/
def notFoundResp : HttpResponse :=
  { status := 404, contentType := "text/html", body := "" }

/-- A status-200 soft-block page (carries a block signature), the kind of
response that drives the rotate-and-wait retry loop to exhaustion. -/
def softBlockResp : HttpResponse :=
  { status := 200, contentType := "text/html", body := "captcha" }

example : isBlockedResponse (some ⟨403, "text/html", ""⟩) = false := by decide
example : isBlockedResponse (some ⟨200, "text/html", "short"⟩) = true := by decide
example : isBlockedResponse (some ⟨200, "text/html", "product-list"⟩) = false := by decide
example : isBlockedResponse (some ⟨200, "text/html", "a CAPTCHA page"⟩) = true := by decide
example : isBlockedResponse (some ⟨200, "text/html", ""⟩) = false := by decide
example :
    makeRequest defaultConfig (fun _ => NetEvent.response ⟨404, "text/html", ""⟩) 0 ⟨0, 0⟩
      = (none, ⟨1, 0⟩) := by decide
example :
    makeRequest defaultConfig (fun _ => NetEvent.response ⟨200, "text/html", "captcha"⟩) 0 ⟨0, 0⟩
      = (none, ⟨4, 4⟩) := by decide
example :
    saveResults [⟨"id1", "a"⟩, ⟨"id2", "c"⟩, ⟨"id1", "b"⟩]
      = some [⟨"id2", "c"⟩, ⟨"id1", "b"⟩] := by decide

/-! ### Lemmas about persistence-time deduplication -/

theorem dropDuplicatesKeepLast_cons (a : Review) (l : List Review) :
    dropDuplicatesKeepLast (a :: l) =
      if (dropDuplicatesKeepLast l).any (fun x => x.review_id == a.review_id)
      then dropDuplicatesKeepLast l
      else a :: dropDuplicatesKeepLast l := rfl

theorem lastMatch_eq_none (p : Review → Bool) :
    ∀ l : List Review, lastMatch p l = none ↔ l.any p = false := by
  intro l
  induction l with
  | nil => simp [lastMatch]
  | cons a t ih =>
      cases h : lastMatch p t with
      | some r =>
          have hta : t.any p = true := by
            by_contra hf
            rw [ih.mpr (by simpa using hf)] at h
            exact Option.noConfusion h
          simp [lastMatch, h, hta]
      | none =>
          have htf : t.any p = false := ih.mp h
          by_cases hpa : p a = true <;> simp [lastMatch, h, htf, hpa]

theorem dropDuplicatesKeepLast_any :
    ∀ (l : List Review) (i : String),
      (dropDuplicatesKeepLast l).any (fun x => x.review_id == i)
        = l.any (fun x => x.review_id == i) := by
  intro l
  induction l with
  | nil => intro i; rfl
  | cons a t ih =>
      intro i
      rw [dropDuplicatesKeepLast_cons]
      split
      · rename_i hmem
        rw [ih i, List.any_cons]
        cases hai : a.review_id == i
        · simp
        · have heq : a.review_id = i := by simpa using hai
          have hta : t.any (fun x => x.review_id == i) = true := by
            rw [← heq, ← ih a.review_id]; exact hmem
          simp [hta]
      · simp [List.any_cons, ih i]

theorem dropDuplicatesKeepLast_filter :
    ∀ (l : List Review) (i : String),
      (dropDuplicatesKeepLast l).filter (fun r => r.review_id == i)
        = (lastMatch (fun r => r.review_id == i) l).toList := by
  intro l
  induction l with
  | nil => intro i; rfl
  | cons a t ih =>
      intro i
      rw [dropDuplicatesKeepLast_cons]
      split
      · rename_i hmem
        have hta : t.any (fun x => x.review_id == a.review_id) = true := by
          rw [← dropDuplicatesKeepLast_any t a.review_id]; exact hmem
        rw [ih i]
        cases hlm : lastMatch (fun r => r.review_id == i) t with
        | some r => simp [lastMatch, hlm]
        | none =>
            have htf : t.any (fun x => x.review_id == i) = false :=
              (lastMatch_eq_none _ t).mp hlm
            have hpa : (a.review_id == i) = false := by
              cases hai : a.review_id == i
              · rfl
              · have heq : a.review_id = i := by simpa using hai
                rw [heq] at hta
                rw [hta] at htf
                exact absurd htf (by simp)
            simp [lastMatch, hlm, hpa]
      · rename_i hmem
        have hta : t.any (fun x => x.review_id == a.review_id) = false := by
          rw [← dropDuplicatesKeepLast_any t a.review_id]; simpa using hmem
        rw [List.filter_cons]
        cases hai : a.review_id == i
        · simp only [hai, if_neg Bool.false_ne_true]
          rw [ih i]
          cases hlm : lastMatch (fun r => r.review_id == i) t with
          | some r => simp [lastMatch, hlm]
          | none => simp [lastMatch, hlm, hai]
        · have heq : a.review_id = i := by simpa using hai
          have htfi : t.any (fun x => x.review_id == i) = false := by
            rw [← heq]; exact hta
          have hlm : lastMatch (fun r => r.review_id == i) t = none :=
            (lastMatch_eq_none _ t).mpr htfi
          have hfilt : (dropDuplicatesKeepLast t).filter
              (fun r => r.review_id == i) = [] := by
            rw [ih i, hlm]; rfl
          simp [hai, hfilt, lastMatch, hlm]

/-! ### Frame and monotonicity lemmas for the page/hotel traversal -/

theorem processHotel_processedPages (cfg : Config) (w : World) (st : CrawlState)
    (h : Hotel) : (processHotel cfg w st h).processedPages = st.processedPages := by
  unfold processHotel
  split
  · rfl
  · split
    · rfl
    · dsimp only
      split <;> rfl

theorem processHotel_hotels_mono (cfg : Config) (w : World) (st : CrawlState)
    (h : Hotel) : st.processedHotels ⊆ (processHotel cfg w st h).processedHotels := by
  unfold processHotel
  split
  · exact Finset.Subset.refl _
  · split
    · exact Finset.subset_insert _ _
    · dsimp only
      split
      · exact Finset.Subset.refl _
      · exact Finset.subset_insert _ _

theorem foldl_processHotel_pages (cfg : Config) (w : World) :
    ∀ (hs : List Hotel) (st : CrawlState),
      (hs.foldl (processHotel cfg w) st).processedPages = st.processedPages := by
  intro hs
  induction hs with
  | nil => intro st; rfl
  | cons a t ih =>
      intro st
      rw [List.foldl_cons, ih, processHotel_processedPages]

theorem foldl_processHotel_hotels_mono (cfg : Config) (w : World) :
    ∀ (hs : List Hotel) (st : CrawlState),
      st.processedHotels ⊆ (hs.foldl (processHotel cfg w) st).processedHotels := by
  intro hs
  induction hs with
  | nil => intro st; exact Finset.Subset.refl _
  | cons a t ih =>
      intro st
      rw [List.foldl_cons]
      exact (processHotel_hotels_mono cfg w st a).trans (ih _)

/-! ### Lemmas about the fetch loop -/

theorem makeRequestAttempt_some (cfg : Config) (events : Nat → NetEvent)
    (n : Nat) (c : ReqCounters)
    (recur : ReqCounters → Option String × ReqCounters)
    (body : String) (c' : ReqCounters)
    (hmk : makeRequestAttempt cfg events n c recur = (some body, c')) :
    (∃ r, events n = NetEvent.response r ∧ r.status = 200 ∧
      strContains r.contentType "text/html" = true ∧ 1000 < r.body.length ∧
      body = r.body) ∨
    (∃ c1, recur c1 = (some body, c')) := by
  unfold makeRequestAttempt at hmk
  cases hev : events n <;> rw [hev] at hmk <;> dsimp only at hmk
  case timeout =>
    split at hmk
    · exact Or.inr ⟨_, hmk⟩
    · simp at hmk
  case netError =>
    split at hmk
    · exact Or.inr ⟨_, hmk⟩
    · simp at hmk
  case response r =>
    split at hmk
    · split at hmk
      · exact Or.inr ⟨_, hmk⟩
      · simp at hmk
    · split at hmk
      · split at hmk
        · split at hmk
          · rename_i h200 hct hlen
            have hfst : some r.body = some body := congrArg Prod.fst hmk
            exact Or.inl ⟨r, rfl, by simpa using h200, hct, hlen,
              (Option.some.inj hfst).symm⟩
          · simp at hmk
        · simp at hmk
      · split at hmk <;> simp at hmk

theorem makeRequestGo_some (cfg : Config) (events : Nat → NetEvent) :
    ∀ (fuel n : Nat) (c : ReqCounters) (body : String) (c' : ReqCounters),
      makeRequestGo cfg events fuel n c = (some body, c') →
      ∃ k r, events k = NetEvent.response r ∧ r.status = 200 ∧
        strContains r.contentType "text/html" = true ∧ 1000 < r.body.length ∧
        body = r.body := by
  intro fuel
  induction fuel with
  | zero =>
      intro n c body c' hmk
      rcases makeRequestAttempt_some cfg events n c _ body c' hmk with
        ⟨r, hev, h200, hct, hlen, hbody⟩ | ⟨c1, habs⟩
      · exact ⟨n, r, hev, h200, hct, hlen, hbody⟩
      · simp at habs
  | succ fuel ih =>
      intro n c body c' hmk
      rcases makeRequestAttempt_some cfg events n c _ body c' hmk with
        ⟨r, hev, h200, hct, hlen, hbody⟩ | ⟨c1, hrec⟩
      · exact ⟨n, r, hev, h200, hct, hlen, hbody⟩
      · exact ih _ _ _ _ hrec

theorem makeRequestAttempt_blocked (cfg : Config) (r : HttpResponse)
    (hb : isBlockedResponse (some r) = true) (n : Nat) (c : ReqCounters)
    (recur : ReqCounters → Option String × ReqCounters)
    (hrec : ∀ c1, (recur c1).1 = none) :
    (makeRequestAttempt cfg (fun _ => NetEvent.response r) n c recur).1 = none := by
  unfold makeRequestAttempt
  dsimp only
  rw [if_pos hb]
  split
  · exact hrec _
  · rfl

theorem makeRequestGo_blocked_none (cfg : Config) (r : HttpResponse)
    (hb : isBlockedResponse (some r) = true) :
    ∀ (fuel n : Nat) (c : ReqCounters),
      (makeRequestGo cfg (fun _ => NetEvent.response r) fuel n c).1 = none := by
  intro fuel
  induction fuel with
  | zero =>
      intro n c
      exact makeRequestAttempt_blocked cfg r hb n c _ (fun _ => rfl)
  | succ fuel ih =>
      intro n c
      exact makeRequestAttempt_blocked cfg r hb n c _ (fun c1 => ih _ _)

theorem scrapePage_pages_mono (cfg : Config) (w : World) (p : Nat)
    (st : CrawlState) :
    st.processedPages ⊆ (scrapePage cfg w p st).2.processedPages := by
  unfold scrapePage
  split
  · exact Finset.Subset.refl _
  · dsimp only
    split
    · exact Finset.Subset.refl _
    · split
      · exact Finset.subset_insert _ _
      · refine Finset.Subset.trans ?_ (Finset.subset_insert _ _)
        rw [foldl_processHotel_pages]

theorem scrapePage_hotels_mono (cfg : Config) (w : World) (p : Nat)
    (st : CrawlState) :
    st.processedHotels ⊆ (scrapePage cfg w p st).2.processedHotels := by
  unfold scrapePage
  split
  · exact Finset.Subset.refl _
  · dsimp only
    split
    · exact Finset.Subset.refl _
    · split
      · exact Finset.Subset.refl _
      · refine Finset.Subset.trans ?_ (foldl_processHotel_hotels_mono cfg w _ _)
        exact Finset.Subset.refl _

/-! ### Claim theorems -/

/-- Claim C3: a page number already in `processed_pages` makes
`scrape_page` return immediately with no fetch and no state change; a
hotel whose URL is already in `processed_hotels` is skipped with no fetch
and no state change; a hotel with `reviews_count = 0` is marked processed
without any network call; and the processed sets only ever grow across a
page scrape. -/
theorem claim_c3_dedup_invariants (cfg : Config) (w : World) (p : Nat)
    (st : CrawlState) (h : Hotel) :
    (p ∈ st.processedPages → scrapePage cfg w p st = (true, st)) ∧
    (h.url ∈ st.processedHotels → processHotel cfg w st h = st) ∧
    (h.reviewsCount = 0 →
      processHotel cfg w st h =
        { st with processedHotels := insert h.url st.processedHotels }) ∧
    st.processedPages ⊆ (scrapePage cfg w p st).2.processedPages ∧
    st.processedHotels ⊆ (scrapePage cfg w p st).2.processedHotels := by
  refine ⟨?_, ?_, ?_, scrapePage_pages_mono cfg w p st,
    scrapePage_hotels_mono cfg w p st⟩
  · intro hp
    unfold scrapePage
    rw [if_pos hp]
  · intro hh
    unfold processHotel
    rw [if_pos hh]
  · intro hz
    unfold processHotel
    by_cases hh : h.url ∈ st.processedHotels
    · rw [if_pos hh]
      have hins : insert h.url st.processedHotels = st.processedHotels :=
        Finset.insert_eq_self.mpr hh
      rw [hins]
    · rw [if_neg hh, if_pos (by simp [hz])]

/-- Witness for `claim_c3_dedup_invariants` at concrete inputs: page 1 is
already processed in `stW`, `hotelA` is already visited, and `hotelB` has
zero reviews. -/
theorem claim_c3_witness :
    (1 ∈ stW.processedPages ∧ scrapePage runConfig worldC 1 stW = (true, stW)) ∧
    (hotelA.url ∈ stW.processedHotels ∧
      processHotel runConfig worldC stW hotelA = stW) ∧
    (hotelB.reviewsCount = 0 ∧
      processHotel runConfig worldC stW hotelB =
        { stW with processedHotels := insert hotelB.url stW.processedHotels }) :=
  ⟨⟨by decide, (claim_c3_dedup_invariants runConfig worldC 1 stW hotelA).1 (by decide)⟩,
   ⟨by decide, (claim_c3_dedup_invariants runConfig worldC 1 stW hotelA).2.1 (by decide)⟩,
   ⟨rfl, (claim_c3_dedup_invariants runConfig worldC 1 stW hotelB).2.2.1 rfl⟩⟩

/-- Claim C4: saving the crawl state with `_save_progress` and loading the
resulting checkpoint with `_load_progress` reproduces the identical sets
of processed pages and hotels, the identical ordered result sequence and
the identical counters, whatever state was in memory before the load. -/
theorem claim_c4_checkpoint_roundtrip (cfg : Config) (st st' : CrawlState)
    (now : Nat) :
    loadProgress (some (checkpointOf cfg st now)) st' = st := by
  obtain ⟨res, hots, pages, tr, bc⟩ := st
  simp only [loadProgress, applyCheckpoint, checkpointOf, Finset.sort_toFinset]

/-- Claim C6: below `MAX_RETRIES` a blocked verdict yields a
rotate-and-wait action whose wait is `DELAY_AFTER_BLOCK * (attempt + 1)`,
a deterministic and strictly increasing function of the attempt count; at
`attempt = MAX_RETRIES` the scheduler gives up and the fetch returns the
terminal failure. -/
theorem claim_c6_blocked_backoff (cfg : Config) (a b : Nat)
    (r : HttpResponse) (c : ReqCounters) :
    (a < cfg.MAX_RETRIES →
      blockedNextAction cfg a
        = RetryAction.rotateAndWait (cfg.DELAY_AFTER_BLOCK * ((a : ℚ) + 1))) ∧
    (0 < cfg.DELAY_AFTER_BLOCK → a < b → b < cfg.MAX_RETRIES →
      (blockedNextAction cfg a).waitTime < (blockedNextAction cfg b).waitTime) ∧
    blockedNextAction cfg cfg.MAX_RETRIES = RetryAction.giveUp ∧
    (isBlockedResponse (some r) = true →
      (makeRequest cfg (fun _ => NetEvent.response r)
        cfg.MAX_RETRIES c).1 = none) := by
  refine ⟨?_, ?_, ?_, ?_⟩
  · intro ha
    unfold blockedNextAction
    rw [if_pos ha]
  · intro hbase hab hb
    have ha : a < cfg.MAX_RETRIES := hab.trans hb
    unfold blockedNextAction
    rw [if_pos ha, if_pos hb]
    dsimp only [RetryAction.waitTime]
    have hcast : (a : ℚ) + 1 < (b : ℚ) + 1 := by
      have : (a : ℚ) < (b : ℚ) := by exact_mod_cast hab
      linarith
    exact mul_lt_mul_of_pos_left hcast hbase
  · unfold blockedNextAction
    rw [if_neg (lt_irrefl _)]
  · intro hb
    exact makeRequestGo_blocked_none cfg r hb _ _ _

/-- Witness for `claim_c6_blocked_backoff` under the run configuration
(`MAX_RETRIES = 3`, `DELAY_AFTER_BLOCK = 10`) with a blocked soft-block
response. -/
theorem claim_c6_witness :
    (0 < runConfig.MAX_RETRIES ∧
      blockedNextAction runConfig 0
        = RetryAction.rotateAndWait (runConfig.DELAY_AFTER_BLOCK * ((0 : ℚ) + 1))) ∧
    ((0 : ℚ) < runConfig.DELAY_AFTER_BLOCK ∧
      (blockedNextAction runConfig 0).waitTime
        < (blockedNextAction runConfig 1).waitTime) ∧
    (isBlockedResponse (some softBlockResp) = true ∧
      (makeRequest runConfig (fun _ => NetEvent.response softBlockResp)
        runConfig.MAX_RETRIES ⟨0, 0⟩).1 = none) :=
  ⟨⟨by decide,
      (claim_c6_blocked_backoff runConfig 0 1 softBlockResp ⟨0, 0⟩).1 (by decide)⟩,
   ⟨by decide,
      (claim_c6_blocked_backoff runConfig 0 1 softBlockResp ⟨0, 0⟩).2.1
        (by decide) (by decide) (by decide)⟩,
   ⟨by decide,
      (claim_c6_blocked_backoff runConfig 0 1 softBlockResp ⟨0, 0⟩).2.2.2
        (by decide)⟩⟩

theorem makeRequestAttempt_bad200 (cfg : Config) (r : HttpResponse) (n : Nat)
    (c : ReqCounters) (recur : ReqCounters → Option String × ReqCounters)
    (h200 : r.status = 200) (hnb : isBlockedResponse (some r) = false)
    (hbad : strContains r.contentType "text/html" = false ∨ r.body.length ≤ 1000) :
    (makeRequestAttempt cfg (fun _ => NetEvent.response r) n c recur).1 = none := by
  unfold makeRequestAttempt
  dsimp only
  rw [if_neg (by simp [hnb])]
  rcases hbad with hct | hlen
  · rw [if_pos (by simp [h200]), if_neg (by simp [hct])]
  · rw [if_pos (by simp [h200])]
    by_cases hct : strContains r.contentType "text/html" = true
    · rw [if_pos hct, if_neg (not_lt.mpr hlen)]
    · rw [if_neg hct]

/-- Claim C10: `make_request` returns a body only when the final response
has status 200, a `Content-Type` containing `text/html` and a body longer
than 1000 characters; a status-200 response failing the content-type or
length check — even one not classified as blocked — yields `None`. -/
theorem claim_c10_success_conditions (cfg : Config) (events : Nat → NetEvent)
    (n : Nat) (c : ReqCounters) (body : String) (r : HttpResponse) :
    ((makeRequest cfg events n c).1 = some body →
      ∃ k resp, events k = NetEvent.response resp ∧ resp.status = 200 ∧
        strContains resp.contentType "text/html" = true ∧
        1000 < resp.body.length ∧ body = resp.body) ∧
    (r.status = 200 → isBlockedResponse (some r) = false →
      strContains r.contentType "text/html" = false ∨ r.body.length ≤ 1000 →
      (makeRequest cfg (fun _ => NetEvent.response r) n c).1 = none) := by
  constructor
  · intro hmk
    unfold makeRequest at hmk
    have hpair : makeRequestGo cfg events (cfg.MAX_RETRIES + 1 - n) n c
        = (some body, (makeRequestGo cfg events (cfg.MAX_RETRIES + 1 - n) n c).2) := by
      rw [← hmk]
    exact makeRequestGo_some cfg events _ n c body _ hpair
  · intro h200 hnb hbad
    unfold makeRequest
    cases cfg.MAX_RETRIES + 1 - n with
    | zero => exact makeRequestAttempt_bad200 cfg r n c _ h200 hnb hbad
    | succ k => exact makeRequestAttempt_bad200 cfg r n c _ h200 hnb hbad

/-- Witness for `claim_c10_success_conditions`: a short status-200 body
carrying the content marker is not blocked, yet `make_request` returns
`None` for it. -/
theorem claim_c10_witness :
    shortMarkerResp.status = 200 ∧
    isBlockedResponse (some shortMarkerResp) = false ∧
    shortMarkerResp.body.length ≤ 1000 ∧
    (makeRequest runConfig (fun _ => NetEvent.response shortMarkerResp)
      0 ⟨0, 0⟩).1 = none :=
  ⟨rfl, by decide, by decide,
    (claim_c10_success_conditions runConfig
        (fun _ => NetEvent.response shortMarkerResp) 0 ⟨0, 0⟩ "" shortMarkerResp).2
      rfl (by decide) (Or.inr (by decide))⟩

set_option maxRecDepth 40000 in
/-- Counterexample to claim C1: page 1 of `worldC` lists `hotelA`
(3 reviews) whose detail fetch terminally fails (every attempt returns
403, and `make_request` returns `None`); `scrape_page` completes the page
and continues, but `hotelA`'s URL is NOT added to `processed_hotels`,
contrary to the claim that it is recorded as visited. -/
theorem claim_c1_counterexample :
    (scrapePage runConfig worldC 1 emptyCrawlState).1 = true ∧
    1 ∈ (scrapePage runConfig worldC 1 emptyCrawlState).2.processedPages ∧
    hotelA.url ∉ (scrapePage runConfig worldC 1 emptyCrawlState).2.processedHotels := by
  refine ⟨?_, ?_, ?_⟩ <;> decide

/-- Amended claim C1: when a pending, review-bearing hotel's detail fetch
ends in terminal failure, the hotel loop `continue`s WITHOUT adding the
hotel's URL to `processed_hotels` and without yielding reviews (only the
request counters change); the crawl continues and the page is still
marked complete when `scrape_page` returns `True`. -/
theorem claim_c1_amended (cfg : Config) (w : World) (st : CrawlState)
    (h : Hotel) (p : Nat)
    (hmem : h.url ∉ st.processedHotels) (hrc : h.reviewsCount ≠ 0)
    (hfail : (makeRequest cfg (w.hotelEvents h.url) 0
      ⟨st.totalRequests, st.blockedCount⟩).1 = none) :
    (processHotel cfg w st h).processedHotels = st.processedHotels ∧
    (processHotel cfg w st h).results = st.results ∧
    (p ∉ st.processedPages → (scrapePage cfg w p st).1 = true →
      p ∈ (scrapePage cfg w p st).2.processedPages) := by
  refine ⟨?_, ?_, ?_⟩
  · unfold processHotel
    rw [if_neg hmem, if_neg (by simp [hrc])]
    dsimp only
    rw [hfail]
  · unfold processHotel
    rw [if_neg hmem, if_neg (by simp [hrc])]
    dsimp only
    rw [hfail]
  · intro hp htrue
    unfold scrapePage at htrue ⊢
    rw [if_neg hp] at htrue ⊢
    dsimp only at htrue ⊢
    cases hres : (makeRequest cfg (w.pageEvents p) 0
        ⟨st.totalRequests, st.blockedCount⟩).1 with
    | none => rw [hres] at htrue; simp at htrue
    | some html =>
        dsimp only
        by_cases hemp : (w.extractHotels p html).isEmpty = true
        · rw [if_pos hemp]
          exact Finset.mem_insert_self _ _
        · rw [if_neg hemp]
          exact Finset.mem_insert_self _ _

/-- Witness for `claim_c1_amended`: `hotelA` in `worldC` starting from the
empty state. -/
theorem claim_c1_witness :
    (hotelA.url ∉ emptyCrawlState.processedHotels ∧ hotelA.reviewsCount ≠ 0 ∧
      (makeRequest runConfig (worldC.hotelEvents hotelA.url) 0 ⟨0, 0⟩).1 = none) ∧
    (processHotel runConfig worldC emptyCrawlState hotelA).processedHotels
      = emptyCrawlState.processedHotels ∧
    (processHotel runConfig worldC emptyCrawlState hotelA).results
      = emptyCrawlState.results :=
  ⟨⟨by decide, by decide, by decide⟩,
   (claim_c1_amended runConfig worldC emptyCrawlState hotelA 1
      (by decide) (by decide) (by decide)).1,
   (claim_c1_amended runConfig worldC emptyCrawlState hotelA 1
      (by decide) (by decide) (by decide)).2.1⟩

/-- Counterexample to claim C2: the operation trace of `_save_progress`
contains no rename at all and writes the progress file directly, so the
checkpoint is not written through a write-temp-then-rename (or
equivalent) atomic-replace mechanism. -/
theorem claim_c2_counterexample :
    ¬ atomicReplaceWrite (saveProgressOps runConfig emptyCrawlState 5)
        runConfig.PROGRESS_FILE := by
  rintro ⟨⟨tmp, content, hne, hw, hr⟩, hnd⟩
  simp [saveProgressOps] at hr

/-- Amended claim C2: every checkpoint save writes the full state
(processed pages, processed hotels, results, counters) to the progress
file by a direct in-place truncating write — not atomically via
temp-file-plus-rename — and additionally writes the same full checkpoint
to a timestamped backup file; a missing or unparseable checkpoint at load
time leaves the in-memory (initially empty) state in place. -/
theorem claim_c2_amended (cfg : Config) (st : CrawlState) (now : Nat) :
    saveProgressOps cfg st now =
      [FileOp.writeFile cfg.PROGRESS_FILE (checkpointOf cfg st now),
       FileOp.writeFile (backupPath now) (checkpointOf cfg st now)] ∧
    ((saveProgressOps cfg st now).all fun op => !op.isRename) = true ∧
    loadProgress none st = st :=
  ⟨rfl, rfl, rfl⟩

/-- Counterexample to claim C5: a status-200 body shorter than the
threshold that carries the content marker is NOT classified under the
short-body rule as blocked — `_is_blocked_response` returns `False` for
it, so the marker overrides the short-body rule below the threshold too,
contrary to the claim. -/
theorem claim_c5_counterexample :
    shortMarkerResp.status = 200 ∧
    shortMarkerResp.body.length < 1000 ∧
    strContains shortMarkerResp.body contentMarker = true ∧
    isBlockedResponse (some shortMarkerResp) = false := by
  refine ⟨rfl, ?_, ?_, ?_⟩ <;> decide

/-- Amended claim C5: for a status-200 response without block signatures,
a nonempty body shorter than 1000 characters lacking the content marker is
classified blocked, while any body containing the marker is never
classified blocked — at every length, not only above the threshold (such
a short response is nonetheless rejected later by `make_request`'s length
gate). -/
theorem claim_c5_amended (r : HttpResponse)
    (h200 : r.status = 200)
    (hsig : blockIndicators.any (fun ind => strContains (strLower r.body) ind)
      = false) :
    (r.body.isEmpty = false → r.body.length < 1000 →
      strContains r.body contentMarker = false →
      isBlockedResponse (some r) = true) ∧
    (strContains r.body contentMarker = true →
      isBlockedResponse (some r) = false) := by
  constructor
  · intro hne hshort hnm
    simp [isBlockedResponse, respTruthy, h200, hne, hsig, hshort, hnm]
  · intro hm
    cases hne : r.body.isEmpty
    · simp [isBlockedResponse, respTruthy, h200, hne, hsig, hm]
    · simp [isBlockedResponse, respTruthy, h200, hne]

/-- Witness for `claim_c5_amended`: a short 200 without the marker is
blocked; a short 200 with the marker is not. -/
theorem claim_c5_witness :
    isBlockedResponse (some shortNoMarkerResp) = true ∧
    isBlockedResponse (some shortMarkerResp) = false :=
  ⟨(claim_c5_amended shortNoMarkerResp rfl (by decide)).1
      (by decide) (by decide) (by decide),
   (claim_c5_amended shortMarkerResp rfl (by decide)).2 (by decide)⟩

/-- Counterexample to claim C7: a 404 response and an
exhausted-retries give-up both make `make_request` return `None` — the
two outcomes are identical, so callers cannot distinguish a missing
target from exhausted retries. -/
theorem claim_c7_counterexample :
    (makeRequest runConfig (fun _ => NetEvent.response notFoundResp) 0 ⟨0, 0⟩).1
      = (makeRequest runConfig (fun _ => NetEvent.response softBlockResp) 0 ⟨0, 0⟩).1 ∧
    (makeRequest runConfig (fun _ => NetEvent.response notFoundResp) 0 ⟨0, 0⟩).1
      = none := by
  constructor <;> decide

theorem makeRequestAttempt_404 (cfg : Config) (r : HttpResponse) (n : Nat)
    (c : ReqCounters) (recur : ReqCounters → Option String × ReqCounters)
    (h404 : r.status = 404) :
    makeRequestAttempt cfg (fun _ => NetEvent.response r) n c recur
      = (none, ⟨c.totalRequests + 1, c.blockedCount⟩) := by
  have hnb : isBlockedResponse (some r) = false := by
    simp [isBlockedResponse, respTruthy, h404]
  unfold makeRequestAttempt
  dsimp only
  rw [if_neg (by simp [hnb]), if_neg (by simp [h404]), if_pos (by simp [h404])]

/-- Amended claim C7: a 404 response is never retried and consumes no
retry budget (exactly one request is issued and the block counter is
untouched), but its result is `None` — the very value returned after
exhausted retries — so callers cannot distinguish a missing target from
exhausted retries. -/
theorem claim_c7_amended (cfg : Config) (r rb : HttpResponse)
    (c : ReqCounters) (n : Nat) :
    (r.status = 404 →
      makeRequest cfg (fun _ => NetEvent.response r) n c
        = (none, ⟨c.totalRequests + 1, c.blockedCount⟩)) ∧
    (isBlockedResponse (some rb) = true →
      (makeRequest cfg (fun _ => NetEvent.response rb) n c).1 = none) := by
  constructor
  · intro h404
    unfold makeRequest
    cases cfg.MAX_RETRIES + 1 - n with
    | zero => exact makeRequestAttempt_404 cfg r n c _ h404
    | succ k => exact makeRequestAttempt_404 cfg r n c _ h404
  · intro hb
    exact makeRequestGo_blocked_none cfg rb hb _ _ _

/-- Witness for `claim_c7_amended` at a concrete 404 and a concrete
soft-block response. -/
theorem claim_c7_witness :
    makeRequest runConfig (fun _ => NetEvent.response notFoundResp) 0 ⟨0, 0⟩
      = (none, ⟨1, 0⟩) ∧
    (makeRequest runConfig (fun _ => NetEvent.response softBlockResp) 0 ⟨0, 0⟩).1
      = none :=
  ⟨(claim_c7_amended runConfig notFoundResp softBlockResp ⟨0, 0⟩ 0).1 rfl,
   (claim_c7_amended runConfig notFoundResp softBlockResp ⟨0, 0⟩ 0).2 (by decide)⟩

/-- Claim C8: the buffer persisted by `_save_results` contains exactly one
record per review identifier, namely the last-seen (later-appended) one:
its records with a given identifier are exactly the last matching record
of the in-memory buffer; appending to the buffer performs no
deduplication — both duplicates survive an append. -/
theorem claim_c8_dedup_keep_last (buf : List Review) (i : String)
    (old newRecs : List Review) (hne : buf ≠ []) :
    (∃ out, saveResults buf = some out ∧
      out.filter (fun r => r.review_id == i)
        = (lastMatch (fun r => r.review_id == i) buf).toList) ∧
    (appendResults old newRecs).filter (fun r => r.review_id == i)
      = old.filter (fun r => r.review_id == i)
        ++ newRecs.filter (fun r => r.review_id == i) := by
  constructor
  · refine ⟨dropDuplicatesKeepLast buf, ?_, dropDuplicatesKeepLast_filter buf i⟩
    have hemp : buf.isEmpty = false := by
      cases buf with
      | nil => exact absurd rfl hne
      | cons a t => rfl
    unfold saveResults
    rw [hemp]
    rfl
  · unfold appendResults
    exact List.filter_append _ _

/-- Witness for `claim_c8_dedup_keep_last`: two records sharing `"id1"`;
the persisted buffer keeps exactly the second, while appending kept
both. -/
theorem claim_c8_witness :
    (∃ out, saveResults [(⟨"id1", "a"⟩ : Review), ⟨"id1", "b"⟩] = some out ∧
      out.filter (fun r => r.review_id == "id1")
        = (lastMatch (fun r => r.review_id == "id1")
            [(⟨"id1", "a"⟩ : Review), ⟨"id1", "b"⟩]).toList) ∧
    (appendResults [(⟨"id1", "a"⟩ : Review)] [⟨"id1", "b"⟩]).filter
        (fun r => r.review_id == "id1")
      = [(⟨"id1", "a"⟩ : Review)].filter (fun r => r.review_id == "id1")
        ++ [(⟨"id1", "b"⟩ : Review)].filter (fun r => r.review_id == "id1") :=
  claim_c8_dedup_keep_last [⟨"id1", "a"⟩, ⟨"id1", "b"⟩] "id1"
    [⟨"id1", "a"⟩] [⟨"id1", "b"⟩] (by decide)

/-- Counterexample to claim C9: the delay values supplied at construction
are not the ones in effect — `__init__` overwrites them before the run
(DELAY_MIN 8 → 3, DELAY_AFTER_BLOCK 60 → 10 for the default
configuration). -/
theorem claim_c9_counterexample :
    (parserInit defaultConfig).DELAY_MIN ≠ defaultConfig.DELAY_MIN ∧
    (parserInit defaultConfig).DELAY_AFTER_BLOCK
      ≠ defaultConfig.DELAY_AFTER_BLOCK := by
  constructor <;> decide

/-- Amended claim C9: the configuration is read-only during the run
itself (a page-loop step never changes it), and retry limits and
per-page/per-hotel caps survive construction unchanged; but the
constructor overwrites every delay field (to 3-5 seconds pacing and a
10-second block backoff) before the run starts, so the delay values
supplied at construction are not the ones in effect. -/
theorem claim_c9_amended (c : Config) (w : World) (p : Nat)
    (ps : ParserState) (loaded : Option Checkpoint) :
    (runStep w p ps).cfg = ps.cfg ∧
    (constructParser c loaded).cfg = parserInit c ∧
    (parserInit c).MAX_RETRIES = c.MAX_RETRIES ∧
    (parserInit c).TIMEOUT = c.TIMEOUT ∧
    (parserInit c).MAX_HOTELS_PER_PAGE = c.MAX_HOTELS_PER_PAGE ∧
    (parserInit c).MAX_REVIEWS_PER_HOTEL = c.MAX_REVIEWS_PER_HOTEL ∧
    (parserInit c).MAX_PAGES = c.MAX_PAGES ∧
    (parserInit c).DELAY_MIN = 3 ∧ (parserInit c).DELAY_MAX = 5 ∧
    (parserInit c).DELAY_BETWEEN_HOTELS_MIN = 3 ∧
    (parserInit c).DELAY_BETWEEN_HOTELS_MAX = 5 ∧
    (parserInit c).DELAY_BETWEEN_PAGES_MIN = 3 ∧
    (parserInit c).DELAY_BETWEEN_PAGES_MAX = 5 ∧
    (parserInit c).DELAY_AFTER_BLOCK = 10 :=
  ⟨rfl, rfl, rfl, rfl, rfl, rfl, rfl, rfl, rfl, rfl, rfl, rfl, rfl, rfl⟩
